import Mathlib

/-!
Shallow embedding of `src/tools/bookmark/run.py` (Chrome bookmark converter).

The Python module parses a Chrome bookmark export (nested-list HTML markup),
produces normalized bookmark records, and serializes them through a
format-name → encoder-function registry.  Pure helper functions are embedded
as Lean functions over `String` / `List Char`; the markup tree is embedded as
an inductive node type, and the BeautifulSoup queries used by the decoder
(`find`, `find_all`, `find_parent`, `find_previous_sibling`, `.string`,
`get_text(strip=True)`, `.get`) are embedded as traversals of that tree.
Decoder instance counters (`total_bookmarks`, `total_folders`,
`processed_files`) are threaded as explicit state.
-/

/-! ### Python string primitives (ASCII fragment used by the source) -/

/-- Whitespace recognized by Python `str.strip()` (ASCII fragment; the inputs
exercised here are ASCII or CJK text, for which this agrees with Python). -/
def isSpaceChar (c : Char) : Bool :=
  c = ' ' || c = '\t' || c = '\n' || c = '\r' || c = '\x0b' || c = '\x0c'

/-- Python `s.strip()` on a character list: drop leading and trailing
whitespace. -/
def pyStripL (l : List Char) : List Char :=
  ((l.dropWhile isSpaceChar).reverse.dropWhile isSpaceChar).reverse

/-- Python `s.strip()`. -/
def pyStrip (s : String) : String := String.mk (pyStripL s.data)

/-- Does `pat` occur as a contiguous subsequence of `l`?  Python's
`pat in s` for a non-empty pattern. -/
def occursIn (pat : List Char) : List Char → Bool
  | [] => pat.isPrefixOf []
  | c :: rest => pat.isPrefixOf (c :: rest) || occursIn pat rest

/-- Python `s.split(pat)[0]` for a non-empty `pat`: the text before the first
occurrence of `pat` (all of `l` when `pat` does not occur). -/
def beforeFirst (pat : List Char) : List Char → List Char
  | [] => []
  | c :: rest => if pat.isPrefixOf (c :: rest) then [] else c :: beforeFirst pat rest

/-- Text after the first occurrence of `pat` (empty when `pat` does not
occur). -/
def afterFirst (pat : List Char) : List Char → List Char
  | [] => []
  | c :: rest =>
    if pat.isPrefixOf (c :: rest) then (c :: rest).drop pat.length
    else afterFirst pat rest

/-- Python `s.split(pat)[1]` for a non-empty `pat` that occurs in `l`: the
text strictly between the first occurrence of `pat` and the following one
(to the end when `pat` occurs only once).  Returns `[]` when `pat` does not
occur (the source guards this case). -/
def split1 (pat : List Char) : List Char → List Char
  | [] => []
  | c :: rest =>
    if pat.isPrefixOf (c :: rest) then beforeFirst pat ((c :: rest).drop pat.length)
    else split1 pat rest

/-- Helper for `pyRemoveAll`: when `skip` is positive we are inside an
already-matched occurrence and just discard characters. -/
def removeAllAux (pat : List Char) : List Char → Nat → List Char
  | [], _ => []
  | _ :: rest, skip + 1 => removeAllAux pat rest skip
  | c :: rest, 0 =>
    if pat.isPrefixOf (c :: rest) then removeAllAux pat rest (pat.length - 1)
    else c :: removeAllAux pat rest 0

/-- Python `s.replace(pat, '')` for a non-empty `pat`: remove every
non-overlapping occurrence of `pat`, scanning left to right. -/
def pyRemoveAll (pat : List Char) (l : List Char) : List Char :=
  removeAllAux pat l 0

/-! ### BookmarkDecoder._extract_domain -/

/-- The scheme separator `"://"` as a character list. -/
def sepSeq : List Char := [':', '/', '/']

/-- The prefix `"www."` as a character list. -/
def wwwSeq : List Char := ['w', 'w', 'w', '.']

/-- `BookmarkDecoder._extract_domain`: `if not url or '://' not in url:
return ''`, then `url.split('://')[1].split('/')[0]` followed by
`.replace('www.', '')` (which removes every occurrence of `"www."`, not just
a leading one). -/
def extract_domain (url : String) : String :=
  if url == ("") || !(occursIn sepSeq url.data) then ("")
  else String.mk (pyRemoveAll wwwSeq (beforeFirst ['/'] (split1 sepSeq url.data)))

/-- Domain extraction as claim C1 words it: the authority segment is the text
between the first `"://"` and the next `"/"`, and only a leading `"www."` is
stripped. -/
def domainClaimed (url : String) : String :=
  if url == ("") || !(occursIn sepSeq url.data) then ("")
  else
    let auth := (afterFirst sepSeq url.data).takeWhile (fun c => c ≠ '/')
    String.mk (if wwwSeq.isPrefixOf auth then auth.drop 4 else auth)

/-- Truncate at the first `'/'` or at the start of the first `"://"`,
whichever comes first. -/
def cutAtSlashOrScheme : List Char → List Char
  | [] => []
  | c :: rest =>
    if c = '/' then []
    else if sepSeq.isPrefixOf (c :: rest) then []
    else c :: cutAtSlashOrScheme rest

/-- Domain extraction as the amended claim words it: the segment after the
first `"://"`, truncated at the next `"/"` or `"://"` (whichever comes
first), with every occurrence of `"www."` removed. -/
def domainAmended (url : String) : String :=
  if url == ("") || !(occursIn sepSeq url.data) then ("")
  else String.mk (pyRemoveAll wwwSeq (cutAtSlashOrScheme (afterFirst sepSeq url.data)))

/-! ### BookmarkDecoder._get_bookmark_type -/

/-- Python `url.lower()` (ASCII fragment; sufficient for matching the ASCII
scheme literals the source tests). -/
def lowerStr (s : String) : String := String.mk (s.data.map Char.toLower)

/-- Python `s.startswith(pre)`. -/
def strStartsWith (s pre : String) : Bool := pre.data.isPrefixOf s.data

/-- `BookmarkDecoder._get_bookmark_type`: case-insensitive URL scheme
classification in source order. -/
def bookmark_type (url : String) : String :=
  if url == ("") then ("unknown")
  else
    let u := lowerStr url
    if strStartsWith u ("http://") || strStartsWith u ("https://") then ("website")
    else if strStartsWith u ("file://") then ("local")
    else if strStartsWith u ("javascript:") then ("javascript")
    else if strStartsWith u ("mailto:") then ("email")
    else ("other")

/-! ### BookmarkDecoder._clean_folder_path -/

/-- `BookmarkDecoder._clean_folder_path`: empty path becomes the root
placeholder; otherwise `path.strip().lstrip('>').strip()`. -/
def clean_folder_path (path : String) : String :=
  if path == ("") then ("书签栏")
  else pyStrip (String.mk ((pyStrip path).data.dropWhile (fun c => c == '>')))

/-! ### BookmarkDecoder._convert_timestamp -/

/-- Exceptions that `datetime.fromtimestamp` can raise; the source catches
only `ValueError` and `OSError`. -/
inductive PyError where
  | overflowError
  | valueError
  | osError
deriving DecidableEq, Repr

deriving instance DecidableEq for Except

/-- Python `int(s)` on a string of ASCII digits. -/
def toNatDigits (s : String) : Nat :=
  s.data.foldl (fun a c => a * 10 + (c.toNat - ('0').toNat)) 0

/-- Zero-padded two-digit decimal rendering (strftime field). -/
def pad2 (n : Nat) : String :=
  if n < 10 then ("0") ++ Nat.repr n else Nat.repr n

/-- Format epoch seconds as `YYYY-MM-DD HH:MM:SS` (proleptic Gregorian,
era-based civil-from-days conversion, UTC).  Defined for the range the
platform `datetime` accepts; years here are always four digits. -/
def formatEpoch (t : Nat) : String :=
  let days := t / 86400
  let secs := t % 86400
  let z := days + 719468
  let era := z / 146097
  let doe := z % 146097
  let yoe := (doe - doe / 1460 + doe / 36524 - doe / 146096) / 365
  let doy := doe - (365 * yoe + yoe / 4 - yoe / 100)
  let mp := (5 * doy + 2) / 153
  let d := doy - (153 * mp + 2) / 5 + 1
  let m := if mp < 10 then mp + 3 else mp - 9
  let y := yoe + era * 400 + (if m ≤ 2 then 1 else 0)
  Nat.repr y ++ ("-") ++ pad2 m ++ ("-") ++ pad2 d ++ (" ") ++
    pad2 (secs / 3600) ++ (":") ++ pad2 (secs % 3600 / 60) ++ (":") ++ pad2 (secs % 60)

/-- Modeled behavior of `datetime.fromtimestamp` on a 64-bit platform with
the clock in UTC, for non-negative integer input: values that do not fit the
platform `time_t` (here `2 ^ 63 ≤ t`) raise `OverflowError`; values whose
civil year exceeds 9999 (here `253402300799 < t`, the epoch value of
`9999-12-31 23:59:59`) raise `ValueError`; otherwise the conversion
succeeds. -/
def fromtimestamp (t : Nat) : Except PyError String :=
  if 2 ^ 63 ≤ t then Except.error PyError.overflowError
  else if 253402300799 < t then Except.error PyError.valueError
  else Except.ok (formatEpoch t)

/-- `BookmarkDecoder._convert_timestamp`: `if timestamp and
timestamp.isdigit():` convert via `datetime.fromtimestamp`, catching only
`(ValueError, OSError)`; every other path returns the unknown-date
placeholder.  An uncaught exception propagates as `Except.error`. -/
def convert_timestamp (timestamp : String) : Except PyError String :=
  if timestamp ≠ ("") ∧ timestamp.data.all Char.isDigit = true then
    match fromtimestamp (toNatDigits timestamp) with
    | Except.ok s => Except.ok s
    | Except.error PyError.valueError => Except.ok ("未知日期")
    | Except.error PyError.osError => Except.ok ("未知日期")
    | Except.error PyError.overflowError => Except.error PyError.overflowError
  else Except.ok ("未知日期")

/-! ### Markup tree and the BeautifulSoup queries the decoder uses -/

/-- A parsed markup node: an element with tag name, attributes (BeautifulSoup
lowercases attribute names while parsing) and children, or a text node. -/
inductive HtmlNode where
  | elem (tag : String) (attrs : List (String × String)) (children : List HtmlNode)
  | text (s : String)

/-- A document is the soup object's list of top-level nodes. -/
def HtmlDoc := List HtmlNode

/-- One ancestor level of a node: that ancestor's tag and its own previous
siblings, nearest first (the order `find_previous_sibling` scans them). -/
structure Frame where
  tag : String
  prevs : List HtmlNode

/-- Is the node an element with the given tag? -/
def isElem (tag : String) : HtmlNode → Bool
  | .elem t _ _ => t == tag
  | .text _ => false

/-- A node of the document together with the context the decoder's sibling
and ancestor queries need: the node, its previous siblings (nearest first)
and its ancestor frames (nearest first). -/
def Situated := HtmlNode × List HtmlNode × List Frame

mutual
/-- Every node of the subtree rooted at `n`, in document (preorder) order,
with its sibling/ancestor context; `prevs` and `fs` are the context of `n`
itself. -/
def nodesWF : HtmlNode → List HtmlNode → List Frame → List Situated
  | .text s, prevs, fs => [(.text s, prevs, fs)]
  | .elem t a cs, prevs, fs =>
    (.elem t a cs, prevs, fs) :: childrenWF cs [] (⟨t, prevs⟩ :: fs)

/-- Context for a run of siblings whose common ancestor frames are `fs`;
`prevs` accumulates the siblings already passed, nearest first. -/
def childrenWF : List HtmlNode → List HtmlNode → List Frame → List Situated
  | [], _, _ => []
  | c :: rest, prevs, fs => nodesWF c prevs fs ++ childrenWF rest (c :: prevs) fs
end

/-- All strict descendants of a situated element node, in document order;
empty for a text node.  BeautifulSoup `find`/`find_all` search descendants
only. -/
def descendantsWF : HtmlNode → List HtmlNode → List Frame → List Situated
  | .text _, _, _ => []
  | .elem t _ cs, prevs, fs => childrenWF cs [] (⟨t, prevs⟩ :: fs)

/-- BeautifulSoup `tag.string`: the single text child, also through a chain
of single-child elements; `none` otherwise. -/
def nodeString : HtmlNode → Option String
  | .text s => some s
  | .elem _ _ [c] => nodeString c
  | .elem _ _ _ => none

mutual
/-- All descendant text fragments of a node, in document order
(BeautifulSoup `_all_strings`). -/
def allStrings : HtmlNode → List String
  | .text s => [s]
  | .elem _ _ cs => allStringsL cs

def allStringsL : List HtmlNode → List String
  | [] => []
  | c :: rest => allStrings c ++ allStringsL rest
end

/-- BeautifulSoup `get_text(strip=True)`: concatenate the stripped descendant
text fragments. -/
def getTextStrip (n : HtmlNode) : String :=
  String.join ((allStrings n).map pyStrip)

/-- Python `tag.get(key, '')` on the attribute dictionary. -/
def attrD (n : HtmlNode) (key : String) : String :=
  match n with
  | .elem _ attrs _ =>
    match attrs.find? (fun p => p.1 == key) with
    | some p => p.2
    | none => ("")
  | .text _ => ("")

/-- Python `tag.get(key)` (default `None`). -/
def attrOpt (n : HtmlNode) (key : String) : Option String :=
  match n with
  | .elem _ attrs _ => (attrs.find? (fun p => p.1 == key)).map (fun p => p.2)
  | .text _ => none

/-! ### BookmarkDecoder -/

/-- The decoder's instance counters, set to zero in `__init__`. -/
structure DecoderState where
  total_bookmarks : Nat
  total_folders : Nat
  processed_files : Nat
deriving DecidableEq, Repr

/-- `BookmarkDecoder()` — all counters start at zero. -/
def initState : DecoderState := ⟨0, 0, 0⟩

/-- A normalized bookmark record (the dictionary built by
`BookmarkDecoder._parse_bookmark`). -/
structure Record where
  title : String
  url : String
  domain : String
  folder : String
  add_date : String
  last_modified : String
  bookmark_type : String
  has_icon : Bool
  icon : String
deriving DecidableEq, Repr

/-- The folder-path walk of `_parse_folder` for one anchor: repeatedly take
the nearest enclosing `dl` ancestor, look at its nearest previous sibling
`h3`, and keep that heading's truthy `.string`; the walk collects titles
innermost-first and `insert(0, ...)` reverses them to top-down order. -/
def folderTitles (fs : List Frame) : List String :=
  ((fs.filter (fun f => f.tag == ("dl"))).filterMap (fun f =>
    match f.prevs.find? (isElem ("h3")) with
    | some h =>
      match nodeString h with
      | some s => if s == ("") then none else some s
      | none => none
    | none => none)).reverse

/-- `' > '.join(folder_path) if folder_path else '书签栏'`. -/
def joinFolder (titles : List String) : String :=
  if titles = [] then ("书签栏")
  else String.intercalate (" > ") titles

/-- `BookmarkDecoder._parse_bookmark`: build the record dictionary; a
per-link exception (only `_convert_timestamp` can raise one) is caught by
the caller-side `except`, making the result `none` and skipping the link. -/
def parse_bookmark (a_element : HtmlNode) (folder : String) : Option Record :=
  match convert_timestamp (attrD a_element ("add_date")),
        convert_timestamp (attrD a_element ("last_modified")) with
  | Except.ok ad, Except.ok lm =>
    let title := getTextStrip a_element
    let url := pyStrip (attrD a_element ("href"))
    some
      { title := if title == ("") then ("无标题") else title
        url := url
        domain := extract_domain url
        folder := clean_folder_path folder
        add_date := ad
        last_modified := lm
        bookmark_type := bookmark_type url
        has_icon := match attrOpt a_element ("icon") with
          | some s => !(s == (""))
          | none => false
        icon := attrD a_element ("icon") }
  | _, _ => none

/-- The loop body of `BookmarkDecoder._parse_folder` over the anchors found
under the root: compute each anchor's folder path from its ancestor frames,
parse it, append the record and bump `total_bookmarks` on success. -/
def parse_folder_st (st : DecoderState) : List Situated → DecoderState × List Record
  | [] => (st, [])
  | (n, _, fs) :: rest =>
    match parse_bookmark n (joinFolder (folderTitles fs)) with
    | some r =>
      let q := parse_folder_st { st with total_bookmarks := st.total_bookmarks + 1 } rest
      (q.1, r :: q.2)
    | none => parse_folder_st st rest

/-- `soup.find('dl')`: the first `dl` element of the document in document
order, together with its sibling/ancestor context. -/
def findRootDl (doc : HtmlDoc) : Option Situated :=
  (childrenWF doc [] []).find? (fun p => isElem ("dl") p.1)

/-- `root.find_all('a')` with sibling/ancestor context for each hit. -/
def anchorsUnder (root : Situated) : List Situated :=
  (descendantsWF root.1 root.2.1 root.2.2).filter (fun p => isElem ("a") p.1)

/-- `BookmarkDecoder.decode`: missing `dl` root gives an empty record list
(a logged warning, not an error); otherwise `_parse_folder(root)`. -/
def decode (st : DecoderState) (doc : HtmlDoc) : DecoderState × List Record :=
  match findRootDl doc with
  | none => (st, [])
  | some root => parse_folder_st st (anchorsUnder root)

/-- `BookmarkDecoder.decode_html` at content level: bump `processed_files`,
then `decode` (file reading and encoding detection are external I/O). -/
def decode_html (st : DecoderState) (doc : HtmlDoc) : DecoderState × List Record :=
  decode { st with processed_files := st.processed_files + 1 } doc

/-- One decoder instance processing a sequence of inputs with `decode`,
collecting each input's records. -/
def decodeAll (st : DecoderState) : List HtmlDoc → DecoderState × List (List Record)
  | [] => (st, [])
  | d :: rest =>
    let p := decode st d
    let q := decodeAll p.1 rest
    (q.1, p.2 :: q.2)

/-! ### BookmarkEncoder — format registry and dispatch

The registered encoder functions perform file I/O; their bodies are treated
as opaque values of type `List Record → α`, while the registry bookkeeping
and dispatch (`register_format`, `get_available_formats`, `encode`) follow
the source.  An exception raised by `encode` is an `Except.error` carrying
the exception message. -/

/-- The class-level registry `BookmarkEncoder._formats`: an insertion-ordered
dictionary from format name to encoder function (Python 3.7+ dict
semantics). -/
structure EncoderReg (α : Type) where
  formats : List (String × (List Record → α))

/-- `BookmarkEncoder.register_format`: last registration for a name wins,
insertion order of first registration is kept (Python dict update). -/
def register_format (r : EncoderReg α) (format_name : String) (encoder_func : List Record → α) :
    EncoderReg α :=
  if (r.formats.map (fun p => p.1)).contains format_name then
    ⟨r.formats.map (fun p => if p.1 == format_name then (p.1, encoder_func) else p)⟩
  else ⟨r.formats ++ [(format_name, encoder_func)]⟩

/-- `BookmarkEncoder.get_available_formats`: `list(cls._formats.keys())`. -/
def get_available_formats (r : EncoderReg α) : List String :=
  r.formats.map (fun p => p.1)

/-- `BookmarkEncoder.encode`: unregistered format raises
`ValueError(f"不支持的输出格式: {output_format}")` before any encoder runs;
otherwise the chosen encoder's result is passed through unchanged. -/
def BookmarkEncoder.encode (r : EncoderReg α) (bookmarks : List Record)
    (output_format : String) : Except String α :=
  match r.formats.find? (fun p => p.1 == output_format) with
  | none => Except.error (("不支持的输出格式: ") ++ output_format)
  | some p => Except.ok (p.2 bookmarks)

/-- The module-level registration block: the five built-in formats in source
order, with opaque encoder bodies. -/
def defaultRegistry : EncoderReg Unit :=
  register_format (register_format (register_format (register_format (register_format
    ⟨[]⟩ ("excel") (fun _ => ())) ("csv") (fun _ => ())) ("json") (fun _ => ()))
    ("stdout") (fun _ => ())) ("flare") (fun _ => ())

/-! ### _encode_flare — category/link data construction -/

/-- A `categories` entry of the flare YAML dialect. -/
structure FlareCategory where
  id : Nat
  title : String
deriving DecidableEq, Repr

/-- A `links` entry of the flare YAML dialect. -/
structure FlareLink where
  name : String
  link : String
  icon : Option String
  category : Option Nat
deriving DecidableEq, Repr

/-- Lexicographic strict order on character lists by code point — how both
Python and Lean order strings. -/
def ltChars : List Char → List Char → Bool
  | [], [] => false
  | [], _ :: _ => true
  | _ :: _, [] => false
  | a :: as, b :: bs =>
    if a.toNat < b.toNat then true
    else if b.toNat < a.toNat then false
    else ltChars as bs

/-- Insert into a strictly sorted list of distinct strings, keeping it
sorted and distinct. -/
def insertSortedDedup (s : String) : List String → List String
  | [] => [s]
  | t :: rest =>
    if s = t then t :: rest
    else if ltChars s.data t.data then s :: t :: rest
    else t :: insertSortedDedup s rest

/-- Python `sorted(set(l))` for strings: the strictly increasing enumeration
of the distinct elements (string order is lexicographic by code point in
both languages). -/
def sortedDedup (l : List String) : List String :=
  l.foldr insertSortedDedup []

/-- Assign 1-based ids to the sorted folder list, in order
(`enumerate(folders, 1)`). -/
def withIds : Nat → List String → List FlareCategory
  | _, [] => []
  | i, f :: rest => ⟨i, f⟩ :: withIds (i + 1) rest

/-- The `folder_to_id` dictionary lookup. -/
def folderId (categories : List FlareCategory) (folder : String) : Option Nat :=
  (categories.find? (fun c => c.title == folder)).map (fun c => c.id)

/-- The pure data built by `_encode_flare` before the YAML dump: distinct
non-empty folders become sorted, 1-based-id categories; every record becomes
a link whose optional icon excludes embedded `data:image/` blobs and whose
optional category is the id of its (non-empty, registered) folder. -/
def encode_flare_data (bookmarks : List Record) : List FlareCategory × List FlareLink :=
  let folders := sortedDedup ((bookmarks.map (fun b => b.folder)).filter (fun f => !(f == (""))))
  let categories := withIds 1 folders
  let links := bookmarks.map (fun b =>
    { name := b.title
      link := b.url
      icon := if !(b.icon == ("")) && !(strStartsWith b.icon ("data:image/")) then some b.icon
              else none
      category := if !(b.folder == ("")) then folderId categories b.folder else none })
  (categories, links)

/-! ### _encode_excel — summary-sheet statistics -/

/-- Count of records whose `bookmark_type` is `website`. -/
def cnt_website (bookmarks : List Record) : Nat :=
  (bookmarks.filter (fun b => b.bookmark_type == ("website"))).length

/-- Count of records whose `bookmark_type` is `local`. -/
def cnt_local (bookmarks : List Record) : Nat :=
  (bookmarks.filter (fun b => b.bookmark_type == ("local"))).length

/-- Count of records whose `bookmark_type` is `other` or `unknown`. -/
def cnt_other_unknown (bookmarks : List Record) : Nat :=
  (bookmarks.filter (fun b =>
    b.bookmark_type == ("other") || b.bookmark_type == ("unknown"))).length

/-- Count of records whose `bookmark_type` is `javascript` or `email`
(counted by no summary row; not a quantity the source computes). -/
def cnt_js_email (bookmarks : List Record) : Nat :=
  (bookmarks.filter (fun b =>
    b.bookmark_type == ("javascript") || b.bookmark_type == ("email"))).length

/-- The `stats` table written to the Excel summary sheet by `_encode_excel`:
total, website, local, other-or-unknown. -/
def excel_stats (bookmarks : List Record) : List (String × Nat) :=
  [(("总书签数"), bookmarks.length),
   (("网页书签"), cnt_website bookmarks),
   (("本地文件"), cnt_local bookmarks),
   (("其他类型"), cnt_other_unknown bookmarks)]

/-! ### ChromeBookmarkConverter -/

/-- `ChromeBookmarkConverter.convert` at content level: decode the input
(via `decode_html`); an empty record list is a logged warning and an absent
result (`none`), produced before the encoder dispatch; otherwise the
registry's `encode` runs and its outcome (result or re-raised exception) is
returned. -/
def convert (r : EncoderReg α) (st : DecoderState) (doc : HtmlDoc)
    (output_format : String) : DecoderState × Option (Except String α) :=
  let p := decode_html st doc
  if p.2 = [] then (p.1, none)
  else (p.1, some (BookmarkEncoder.encode r p.2 output_format))

/-! ### Concrete documents used by the claims -/

/-- Markup whose only folder heading reads `">"`: after cleaning, the
record's folder path is empty. -/
def gtDoc : HtmlDoc :=
  [ .elem ("dl") [] [ .elem ("dt") [] [
      .elem ("h3") [] [ .text (">") ],
      .elem ("dl") [] [ .elem ("dt") [] [
        .elem ("a") [(("href"), ("http://x.com/"))] [ .text ("T") ] ] ] ] ] ]

/-- Markup with two top-level links and one nested folder (`Work`)
containing one link — the end-to-end example of the spec. -/
def e2eDoc : HtmlDoc :=
  [ .elem ("dl") [] [
      .elem ("dt") [] [ .elem ("a") [(("href"), ("http://a.com"))] [ .text ("A") ] ],
      .elem ("dt") [] [ .elem ("a") [(("href"), ("http://b.com"))] [ .text ("B") ] ],
      .elem ("dt") [] [
        .elem ("h3") [] [ .text ("Work") ],
        .elem ("dl") [] [ .elem ("dt") [] [
          .elem ("a") [(("href"), ("http://c.com"))] [ .text ("C") ] ] ] ] ] ]

/-- A well-formed document with a `dl` root but no anchors. -/
def emptyDlDoc : HtmlDoc := [ .elem ("dl") [] [ .elem ("p") [] [] ] ]

/-! ### Supporting lemmas -/

/-- Python `s.split(pat)[1]` is the text after the first occurrence of `pat`
truncated at the following occurrence. -/
theorem split1_eq (pat : List Char) (l : List Char) :
    split1 pat l = beforeFirst pat (afterFirst pat l) := by
  induction l with
  | nil => rfl
  | cons c rest ih =>
    by_cases h : pat.isPrefixOf (c :: rest) = true
    · simp [split1, afterFirst, h]
    · simp [split1, afterFirst, h, ih]

/-- Cutting at the first `"://"` and then at the first `'/'` is cutting at
whichever of the two comes first (`"://"` itself contains a `'/'`). -/
theorem beforeFirst_slash_sep (l : List Char) :
    beforeFirst ['/'] (beforeFirst sepSeq l) = cutAtSlashOrScheme l := by
  induction l with
  | nil => rfl
  | cons c rest ih =>
    by_cases h : sepSeq.isPrefixOf (c :: rest) = true
    · have hc : c = ':' := by
        simp [sepSeq, List.isPrefixOf] at h
        exact h.1.symm
      subst hc
      simp [beforeFirst, cutAtSlashOrScheme, h]
    · by_cases hs : c = '/'
      · subst hs
        simp [beforeFirst, cutAtSlashOrScheme, h, List.isPrefixOf]
      · have hp2 : ∀ x : List Char, (['/'].isPrefixOf (c :: x)) = false := by
          intro x
          simp [List.isPrefixOf]
          exact fun hh => hs hh.symm
        simp [beforeFirst, cutAtSlashOrScheme, h, hs, hp2, ih]

/-! ### Claim C1 — domain extraction -/

/-- Claim C1 is false on the code: `_extract_domain` removes every
occurrence of `"www."` from the authority segment (Python `str.replace`),
not only a leading one, and the segment it cuts is bounded by the next
`"://"` as well as the next `"/"`.  Concretely,
`_extract_domain("http://a.www.b/x")` is `"a.b"`, not the claimed
`"a.www.b"`, and `_extract_domain("a://b://c")` is `"b"`, not the claimed
authority text `"b:"`. -/
theorem c1_counterexample :
    extract_domain ("http://a.www.b/x") = ("a.b")
    ∧ domainClaimed ("http://a.www.b/x") = ("a.www.b")
    ∧ ¬ ((("a.b") : String) = ("a.www.b"))
    ∧ extract_domain ("a://b://c") = ("b")
    ∧ domainClaimed ("a://b://c") = ("b:") := by decide

/-- Amended claim C1: for every url, if the url is empty or contains no
`"://"` then `_extract_domain` returns the empty string; otherwise it
returns the text after the first `"://"`, truncated at the next `"/"` or
`"://"` (whichever comes first), with every occurrence of `"www."`
removed. -/
theorem c1_extract_domain_amended (url : String) :
    extract_domain url = domainAmended url := by
  unfold extract_domain domainAmended
  by_cases h : (url == ("") || !(occursIn sepSeq url.data)) = true
  · simp [h]
  · simp [h, split1_eq, beforeFirst_slash_sep]

/-- Witness for the amended C1 theorem at concrete inputs. -/
theorem c1_amended_witness :
    extract_domain ("http://www.example.com/x") = domainAmended ("http://www.example.com/x")
    ∧ domainAmended ("http://www.example.com/x") = ("example.com") := by
  exact ⟨c1_extract_domain_amended ("http://www.example.com/x"), by decide⟩

/-! ### Claim C5 — bookmark type classification -/

/-- Claim C5: `_get_bookmark_type` is total, returns exactly one of the six
enumerated strings, and classifies by case-insensitive scheme prefix in the
source's priority order: empty → `unknown`; `http://`/`https://` →
`website`; `file://` → `local`; `javascript:` → `javascript`; `mailto:` →
`email`; any other non-empty url → `other`. -/
theorem c5_bookmark_type_classification (url : String) :
    (bookmark_type url = ("website") ∨ bookmark_type url = ("local")
      ∨ bookmark_type url = ("javascript") ∨ bookmark_type url = ("email")
      ∨ bookmark_type url = ("other") ∨ bookmark_type url = ("unknown"))
    ∧ (bookmark_type url = ("unknown") ↔ url = (""))
    ∧ (bookmark_type url = ("website") ↔ ¬ (url = (""))
        ∧ (strStartsWith (lowerStr url) ("http://")
            || strStartsWith (lowerStr url) ("https://")) = true)
    ∧ (bookmark_type url = ("local") ↔ ¬ (url = (""))
        ∧ (strStartsWith (lowerStr url) ("http://")
            || strStartsWith (lowerStr url) ("https://")) = false
        ∧ strStartsWith (lowerStr url) ("file://") = true)
    ∧ (bookmark_type url = ("javascript") ↔ ¬ (url = (""))
        ∧ (strStartsWith (lowerStr url) ("http://")
            || strStartsWith (lowerStr url) ("https://")) = false
        ∧ strStartsWith (lowerStr url) ("file://") = false
        ∧ strStartsWith (lowerStr url) ("javascript:") = true)
    ∧ (bookmark_type url = ("email") ↔ ¬ (url = (""))
        ∧ (strStartsWith (lowerStr url) ("http://")
            || strStartsWith (lowerStr url) ("https://")) = false
        ∧ strStartsWith (lowerStr url) ("file://") = false
        ∧ strStartsWith (lowerStr url) ("javascript:") = false
        ∧ strStartsWith (lowerStr url) ("mailto:") = true)
    ∧ (bookmark_type url = ("other") ↔ ¬ (url = (""))
        ∧ (strStartsWith (lowerStr url) ("http://")
            || strStartsWith (lowerStr url) ("https://")) = false
        ∧ strStartsWith (lowerStr url) ("file://") = false
        ∧ strStartsWith (lowerStr url) ("javascript:") = false
        ∧ strStartsWith (lowerStr url) ("mailto:") = false) := by
  unfold bookmark_type
  by_cases h0 : url == ("")
  · have h0' : url = ("") := by simpa using h0
    simp [h0, h0']
  · have h0' : ¬ (url = ("")) := by simpa using h0
    by_cases h1 : (strStartsWith (lowerStr url) ("http://")
        || strStartsWith (lowerStr url) ("https://")) = true
    · simp [h0, h0', h1]
    · rw [Bool.not_eq_true] at h1
      by_cases h2 : strStartsWith (lowerStr url) ("file://") = true
      · simp [h0, h0', h1, h2]
      · rw [Bool.not_eq_true] at h2
        by_cases h3 : strStartsWith (lowerStr url) ("javascript:") = true
        · simp [h0, h0', h1, h2, h3]
        · rw [Bool.not_eq_true] at h3
          by_cases h4 : strStartsWith (lowerStr url) ("mailto:") = true
          · simp [h0, h0', h1, h2, h3, h4]
          · rw [Bool.not_eq_true] at h4
            simp [h0, h0', h1, h2, h3, h4]

/-! ### Claim C6 — timestamp conversion -/

/-- Claim C6 is false on the code for numeric values that do not fit the
platform `time_t`: `int("9223372036854775808")` is `2 ^ 63`, so
`datetime.fromtimestamp` raises `OverflowError`, which the handler
`except (ValueError, OSError)` does not catch — the exception propagates
instead of the unknown-date placeholder being returned. -/
theorem c6_counterexample :
    convert_timestamp ("9223372036854775808") = Except.error PyError.overflowError
    ∧ ¬ (convert_timestamp ("9223372036854775808") = Except.ok ("未知日期")) := by decide

/-- Amended claim C6: a non-numeric or empty value yields the placeholder;
a numeric value in range for the platform and with civil year at most 9999
yields the formatted `YYYY-MM-DD HH:MM:SS` string; a numeric value beyond
year 9999 but within the platform range yields the placeholder (the raised
`ValueError` is caught); a numeric value of at least `2 ^ 63` propagates an
uncaught `OverflowError`. -/
theorem c6_convert_timestamp_amended (ts : String) :
    (¬ (ts ≠ ("") ∧ ts.data.all Char.isDigit = true) →
      convert_timestamp ts = Except.ok ("未知日期"))
    ∧ ((ts ≠ ("") ∧ ts.data.all Char.isDigit = true) → toNatDigits ts ≤ 253402300799 →
      convert_timestamp ts = Except.ok (formatEpoch (toNatDigits ts)))
    ∧ ((ts ≠ ("") ∧ ts.data.all Char.isDigit = true) → 253402300799 < toNatDigits ts →
      toNatDigits ts < 2 ^ 63 →
      convert_timestamp ts = Except.ok ("未知日期"))
    ∧ ((ts ≠ ("") ∧ ts.data.all Char.isDigit = true) → 2 ^ 63 ≤ toNatDigits ts →
      convert_timestamp ts = Except.error PyError.overflowError) := by
  refine ⟨?_, ?_, ?_, ?_⟩
  · intro h
    simp only [convert_timestamp]
    rw [if_neg h]
  · intro h h2
    have h3 : ¬ (2 ^ 63 ≤ toNatDigits ts) := by omega
    have h4 : ¬ (253402300799 < toNatDigits ts) := by omega
    simp only [convert_timestamp, fromtimestamp]
    rw [if_pos h, if_neg h3, if_neg h4]
  · intro h h2 h3
    have h4 : ¬ (2 ^ 63 ≤ toNatDigits ts) := by omega
    simp only [convert_timestamp, fromtimestamp]
    rw [if_pos h, if_neg h4, if_pos h2]
  · intro h h2
    simp only [convert_timestamp, fromtimestamp]
    rw [if_pos h, if_pos h2]

/-- Witness for the amended C6 theorem: `"0"` formats as the epoch and a
non-numeric attribute yields the placeholder. -/
theorem c6_amended_witness :
    convert_timestamp ("0") = Except.ok ("1970-01-01 00:00:00")
    ∧ convert_timestamp ("abc") = Except.ok ("未知日期") := by
  constructor
  · exact ((c6_convert_timestamp_amended ("0")).2.1 (by decide) (by decide)).trans (by decide)
  · exact (c6_convert_timestamp_amended ("abc")).1 (by decide)

/-! ### Decoder bookkeeping lemmas -/

/-- The records `_parse_folder` emits: one per anchor whose parse succeeds,
independent of the decoder's counters. -/
theorem parse_folder_st_records (st : DecoderState) (links : List Situated) :
    (parse_folder_st st links).2 =
      links.filterMap (fun t => parse_bookmark t.1 (joinFolder (folderTitles t.2.2))) := by
  induction links generalizing st with
  | nil => rfl
  | cons t rest ih =>
    obtain ⟨n, pv, fs⟩ := t
    cases hpb : parse_bookmark n (joinFolder (folderTitles fs)) with
    | none => simp [parse_folder_st, hpb, List.filterMap_cons, ih]
    | some r => simp [parse_folder_st, hpb, List.filterMap_cons, ih]

/-- `_parse_folder` adds the number of emitted records to `total_bookmarks`
and touches neither `total_folders` nor `processed_files`. -/
theorem parse_folder_st_state (st : DecoderState) (links : List Situated) :
    (parse_folder_st st links).1.total_bookmarks
        = st.total_bookmarks + (parse_folder_st st links).2.length
    ∧ (parse_folder_st st links).1.total_folders = st.total_folders
    ∧ (parse_folder_st st links).1.processed_files = st.processed_files := by
  induction links generalizing st with
  | nil => simp [parse_folder_st]
  | cons t rest ih =>
    obtain ⟨n, pv, fs⟩ := t
    cases hpb : parse_bookmark n (joinFolder (folderTitles fs)) with
    | none =>
      have h := ih st
      simpa [parse_folder_st, hpb] using h
    | some r =>
      have h := ih { st with total_bookmarks := st.total_bookmarks + 1 }
      dsimp only at h
      simp only [parse_folder_st, hpb]
      refine ⟨?_, h.2.1, h.2.2⟩
      simp only [List.length_cons]
      omega

/-- The record list `decode` produces does not depend on the decoder's
counters. -/
theorem decode_records_indep (st st' : DecoderState) (doc : HtmlDoc) :
    (decode st doc).2 = (decode st' doc).2 := by
  unfold decode
  cases findRootDl doc with
  | none => rfl
  | some root => rw [parse_folder_st_records, parse_folder_st_records]

/-- `decode` adds the number of produced records to `total_bookmarks` and
never modifies `total_folders` or `processed_files`. -/
theorem decode_state (st : DecoderState) (doc : HtmlDoc) :
    (decode st doc).1.total_bookmarks = st.total_bookmarks + (decode st doc).2.length
    ∧ (decode st doc).1.total_folders = st.total_folders
    ∧ (decode st doc).1.processed_files = st.processed_files := by
  unfold decode
  cases findRootDl doc with
  | none => simp
  | some root => exact parse_folder_st_state st (anchorsUnder root)

/-! ### Claim C4 — unsupported output format -/

/-- Claim C4 is false on the code in one respect: the `ValueError` message
for an unregistered format names only the requested format
(`f"不支持的输出格式: {output_format}"`) — it does not list the registered
format names.  The dispatch does fail before any encoder is invoked. -/
theorem c4_counterexample :
    BookmarkEncoder.encode defaultRegistry [] ("xml")
        = Except.error (("不支持的输出格式: xml"))
    ∧ ((get_available_formats defaultRegistry).all
        (fun n => !(occursIn n.data ("不支持的输出格式: xml").data))) = true := by
  decide

/-- Amended claim C4: for every registry, record list and format name not
present in the registry, `BookmarkEncoder.encode` raises a `ValueError`
whose message is the fixed unsupported-format text followed by the requested
name, and no registered encoder function is invoked (the result is this
error whatever the registered functions are). -/
theorem c4_encode_unsupported_amended {α : Type} (r : EncoderReg α)
    (bookmarks : List Record) (output_format : String)
    (h : ¬ output_format ∈ get_available_formats r) :
    BookmarkEncoder.encode r bookmarks output_format =
      Except.error (("不支持的输出格式: ") ++ output_format) := by
  unfold BookmarkEncoder.encode
  have hf : r.formats.find? (fun p => p.1 == output_format) = none := by
    rw [List.find?_eq_none]
    intro x hx hxe
    apply h
    unfold get_available_formats
    rw [List.mem_map]
    exact ⟨x, hx, by simpa using hxe⟩
  rw [hf]

/-- Witness for the amended C4 theorem: the default registry rejects
`"xml"`. -/
theorem c4_amended_witness :
    BookmarkEncoder.encode defaultRegistry [] ("xml") =
      Except.error (("不支持的输出格式: ") ++ ("xml")) :=
  c4_encode_unsupported_amended defaultRegistry [] ("xml") (by decide)

/-! ### Claim C7 — empty decode gives an absent conversion result -/

/-- Claim C7: whenever decoding an input produces zero records — in
particular for markup with no `dl` root or with no anchors — the converter
returns an absent result, for every registry (so no encoder function is
invoked). -/
theorem c7_convert_empty_absent {α : Type} (r : EncoderReg α) (st : DecoderState)
    (doc : HtmlDoc) (output_format : String)
    (h : (decode st doc).2 = []) :
    (convert r st doc output_format).2 = none := by
  unfold convert decode_html
  have h2 : (decode { st with processed_files := st.processed_files + 1 } doc).2 = [] := by
    rw [decode_records_indep _ st]
    exact h
  simp [h2]

/-- Witness for C7: an anchor-free document with a `dl` root converts to an
absent result. -/
theorem c7_witness : (convert defaultRegistry initState emptyDlDoc ("excel")).2 = none :=
  c7_convert_empty_absent defaultRegistry initState emptyDlDoc ("excel") (by decide)

/-! ### Claim C8 — cumulative bookmark counter -/

/-- Folding `decode` over a sequence of inputs adds all produced record
counts to the starting `total_bookmarks`. -/
theorem decodeAll_total (st : DecoderState) (docs : List HtmlDoc) :
    (decodeAll st docs).1.total_bookmarks
      = st.total_bookmarks + ((decodeAll st docs).2.map List.length).sum := by
  induction docs generalizing st with
  | nil => simp [decodeAll]
  | cons d rest ih =>
    have h1 := (decode_state st d).1
    have h2 := ih (decode st d).1
    simp only [decodeAll, List.map_cons, List.sum_cons]
    omega

/-- Claim C8: a single decoder instance never resets `total_bookmarks`
between `decode` calls — after decoding any sequence of inputs it equals
the sum of the per-input record counts. -/
theorem c8_total_bookmarks_cumulative (docs : List HtmlDoc) :
    (decodeAll initState docs).1.total_bookmarks
      = ((decodeAll initState docs).2.map List.length).sum := by
  have h := decodeAll_total initState docs
  simpa [initState] using h

/-! ### Claim C9 — the folder counter is never incremented -/

/-- Folding `decode` over any sequence of inputs leaves `total_folders`
unchanged. -/
theorem decodeAll_folders (st : DecoderState) (docs : List HtmlDoc) :
    (decodeAll st docs).1.total_folders = st.total_folders := by
  induction docs generalizing st with
  | nil => rfl
  | cons d rest ih =>
    simp only [decodeAll]
    rw [ih]
    exact (decode_state st d).2.1

/-- Claim C9: `total_folders` starts at zero and is modified by no
operation — neither `decode` nor `decode_html` — so the reported folder
count is 0 for every input sequence. -/
theorem c9_total_folders_constant_zero :
    initState.total_folders = 0
    ∧ (∀ st doc, (decode st doc).1.total_folders = st.total_folders)
    ∧ (∀ st doc, (decode_html st doc).1.total_folders = st.total_folders)
    ∧ (∀ docs, (decodeAll initState docs).1.total_folders = 0) := by
  refine ⟨rfl, fun st doc => (decode_state st doc).2.1, fun st doc => ?_, fun docs => ?_⟩
  · unfold decode_html
    exact (decode_state _ doc).2.1
  · rw [decodeAll_folders]
    simp [initState]

/-! ### String-stripping lemmas for claim C2 -/

/-- The last element of a list is a member. -/
theorem mem_of_getLastQ {l : List Char} {c : Char} (h : l.getLast? = some c) : c ∈ l := by
  induction l with
  | nil => simp at h
  | cons a rest ih =>
    cases rest with
    | nil =>
      simp at h
      simp [h]
    | cons b t =>
      rw [List.getLast?_cons_cons] at h
      exact List.mem_cons_of_mem a (ih h)

/-- The head of `dropWhile p l`, when present, fails `p`. -/
theorem head?_dropWhile_false (p : Char → Bool) (l : List Char) (c : Char)
    (h : (l.dropWhile p).head? = some c) : p c = false := by
  induction l with
  | nil => simp [List.dropWhile] at h
  | cons a rest ih =>
    rw [List.dropWhile_cons] at h
    by_cases hp : p a = true
    · rw [if_pos hp] at h
      exact ih h
    · rw [if_neg hp] at h
      simp at h
      rw [h] at hp
      simpa using hp

/-- Stripping yields the empty list exactly on all-whitespace input. -/
theorem pyStripL_eq_nil_iff (l : List Char) :
    pyStripL l = [] ↔ l.all isSpaceChar = true := by
  unfold pyStripL
  rw [List.reverse_eq_nil_iff, List.dropWhile_eq_nil_iff, List.all_eq_true]
  constructor
  · intro h x hx
    by_cases hx2 : x ∈ l.dropWhile isSpaceChar
    · exact h x (List.mem_reverse.mpr hx2)
    · have hx3 : x ∈ l.takeWhile isSpaceChar ++ l.dropWhile isSpaceChar := by
        rw [List.takeWhile_append_dropWhile]
        exact hx
      rcases List.mem_append.mp hx3 with h1 | h1
      · exact List.mem_takeWhile_imp h1
      · exact absurd h1 hx2
  · intro h x hx
    exact h x ((List.dropWhile_sublist isSpaceChar).subset (List.mem_reverse.mp hx))

/-- The last character of a stripped list, when present, is not
whitespace. -/
theorem pyStripL_getLast_not_space (l : List Char) (c : Char)
    (h : (pyStripL l).getLast? = some c) : isSpaceChar c = false := by
  unfold pyStripL at h
  rw [List.getLast?_reverse] at h
  exact head?_dropWhile_false _ _ _ h

/-- On an already-stripped list, dropping leading `'>'` characters and
stripping again yields the empty list exactly when the stripped list is a
(possibly empty) run of `'>'` characters. -/
theorem stripped_dropGt_nil_iff (l : List Char) :
    pyStripL ((pyStripL l).dropWhile (fun c => c == '>')) = []
      ↔ (pyStripL l).all (fun c => c == '>') = true := by
  constructor
  · intro h
    by_cases ht : (pyStripL l).dropWhile (fun c => c == '>') = []
    · rw [List.dropWhile_eq_nil_iff] at ht
      rw [List.all_eq_true]
      exact ht
    · exfalso
      have hall : ((pyStripL l).dropWhile (fun c => c == '>')).all isSpaceChar = true :=
        (pyStripL_eq_nil_iff _).mp h
      obtain ⟨c, hc⟩ : ∃ c, ((pyStripL l).dropWhile (fun c => c == '>')).getLast? = some c := by
        cases hgl : ((pyStripL l).dropWhile (fun c => c == '>')).getLast? with
        | none => exact absurd (List.getLast?_eq_none_iff.mp hgl) ht
        | some c => exact ⟨c, rfl⟩
      have hsp : isSpaceChar c = true := (List.all_eq_true.mp hall) c (mem_of_getLastQ hc)
      obtain ⟨u, hu⟩ := List.dropWhile_suffix (l := pyStripL l) (fun c => c == '>')
      have hlast : (pyStripL l).getLast? = some c := by
        rw [← hu, List.getLast?_append_of_ne_nil _ ht]
        exact hc
      rw [pyStripL_getLast_not_space l c hlast] at hsp
      exact Bool.false_ne_true hsp
  · intro h
    have h2 : (pyStripL l).dropWhile (fun c => c == '>') = [] := by
      rw [List.dropWhile_eq_nil_iff]
      exact List.all_eq_true.mp h
    rw [h2]
    rfl

/-- A string built from a character list is empty exactly when the list
is. -/
theorem strMk_eq_empty_iff (l : List Char) : String.mk l = ("") ↔ l = [] := by
  constructor
  · intro h
    have h2 := congrArg String.data h
    simpa using h2
  · intro h
    rw [h]

/-- `_clean_folder_path` returns the empty string exactly when its input is
a non-empty string that strips to a (possibly empty) run of `'>'`
characters — so whitespace-only and `">"`-only folder paths clean to the
empty folder. -/
theorem clean_folder_path_eq_empty_iff (path : String) :
    clean_folder_path path = ("") ↔
      ¬ (path = ("")) ∧ (pyStrip path).data.all (fun c => c == '>') = true := by
  by_cases h0 : path = ("")
  · constructor
    · intro h
      rw [h0] at h
      exact absurd h (by decide)
    · intro h
      exact absurd h0 h.1
  · have hb : ¬ ((path == ("")) = true) := by simpa using h0
    unfold clean_folder_path pyStrip
    rw [if_neg hb, strMk_eq_empty_iff]
    constructor
    · intro h
      exact ⟨h0, (stripped_dropGt_nil_iff path.data).mp h⟩
    · intro h
      exact (stripped_dropGt_nil_iff path.data).mpr h.2

/-! ### Claim C2 — folder non-emptiness -/

/-- Claim C2 is false on the code: a heading whose text is `">"` makes the
joined ancestor path `">"`, which `_clean_folder_path` reduces to the empty
string — the decoded record's `folder` is empty, violating the claimed
invariant. -/
theorem c2_counterexample :
    (decode initState gtDoc).2.map (fun r => r.folder) = [("")]
    ∧ ((decode initState gtDoc).2.all (fun r => !(r.folder == ("")))) = false := by
  decide

/-- A successfully parsed bookmark's `folder` field is the cleaned folder
argument. -/
theorem parse_bookmark_folder (n : HtmlNode) (folder : String) (r : Record)
    (h : parse_bookmark n folder = some r) : r.folder = clean_folder_path folder := by
  unfold parse_bookmark at h
  cases h1 : convert_timestamp (attrD n ("add_date")) with
  | error e =>
    cases h2 : convert_timestamp (attrD n ("last_modified")) with
    | error e2 =>
      rw [h1, h2] at h
      simp at h
    | ok lm =>
      rw [h1, h2] at h
      simp at h
  | ok ad =>
    cases h2 : convert_timestamp (attrD n ("last_modified")) with
    | error e2 =>
      rw [h1, h2] at h
      simp at h
    | ok lm =>
      rw [h1, h2] at h
      have h3 := Option.some.inj h
      rw [← h3]

/-- Amended claim C2: every decoded record's `folder` is the cleaning of a
joined ancestor path (the placeholder `"书签栏"` when no heading ancestor
contributes a title, and the placeholder survives cleaning), but the
non-emptiness invariant fails: cleaning yields the empty string exactly on
the non-empty paths that strip to a run of `'>'` characters — e.g. a
nearest heading reading `">"` or whitespace only. -/
theorem c2_folder_amended :
    (∀ st doc r, r ∈ (decode st doc).2 →
      ∃ ts : List String, r.folder = clean_folder_path (joinFolder ts))
    ∧ clean_folder_path (joinFolder []) = ("书签栏")
    ∧ (∀ path : String, clean_folder_path path = ("") ↔
        ¬ (path = ("")) ∧ (pyStrip path).data.all (fun c => c == '>') = true) := by
  refine ⟨?_, by decide, fun path => clean_folder_path_eq_empty_iff path⟩
  intro st doc r hr
  unfold decode at hr
  cases hfind : findRootDl doc with
  | none =>
    rw [hfind] at hr
    simp at hr
  | some root =>
    rw [hfind, parse_folder_st_records] at hr
    rw [List.mem_filterMap] at hr
    obtain ⟨t, ht, heq⟩ := hr
    exact ⟨folderTitles t.2.2, parse_bookmark_folder t.1 _ r heq⟩

/-- The record the `">"`-heading document decodes to. -/
def gtRecord : Record :=
  { title := ("T"), url := ("http://x.com/"), domain := ("x.com"), folder := ("")
    add_date := ("未知日期"), last_modified := ("未知日期")
    bookmark_type := ("website"), has_icon := false, icon := ("") }

/-- Witness for the amended C2 theorem at the concrete `">"`-heading
document. -/
theorem c2_amended_witness :
    ∃ ts : List String, gtRecord.folder = clean_folder_path (joinFolder ts) :=
  c2_folder_amended.1 initState gtDoc gtRecord (by decide)

/-! ### Claim C3 — end-to-end decode and flare encoding -/

/-- Claim C3 is false on the code in its category count: the two top-level
links carry the placeholder folder `"书签栏"`, which is a non-empty folder
and therefore also becomes a category, so the example yields two categories
(`"Work"` sorts before `"书签栏"` by code point), not one. -/
theorem c3_counterexample :
    (decode initState e2eDoc).2.length = 3
    ∧ (encode_flare_data (decode initState e2eDoc).2).1.length = 2
    ∧ ¬ ((2 : Nat) = 1) := by
  decide

/-- Amended claim C3: the example decodes to exactly 3 records, and flare
encoding yields exactly 2 categories — id 1 for `"Work"`, id 2 for the
placeholder `"书签栏"` — and 3 links, each link's `category` equal to the id
assigned to its record's folder. -/
theorem c3_end_to_end_amended :
    (decode initState e2eDoc).2.length = 3
    ∧ (encode_flare_data (decode initState e2eDoc).2).1
        = [⟨1, ("Work")⟩, ⟨2, ("书签栏")⟩]
    ∧ (encode_flare_data (decode initState e2eDoc).2).2.length = 3
    ∧ ((encode_flare_data (decode initState e2eDoc).2).2.map (fun l => l.category))
        = [some 2, some 2, some 1]
    ∧ (((decode initState e2eDoc).2.zip (encode_flare_data (decode initState e2eDoc).2).2).all
        (fun p => p.2.category
          == folderId (encode_flare_data (decode initState e2eDoc).2).1 p.1.folder)) = true := by
  decide

/-! ### Claim C10 — Excel summary-sheet counts -/

/-- A record contributes to at most one of the four type groups (website,
local, other-or-unknown, javascript-or-email). -/
theorem type_partition_le (s : String) :
    (if (s == ("website")) = true then 1 else 0)
      + (if (s == ("local")) = true then 1 else 0)
      + (if ((s == ("other")) || (s == ("unknown"))) = true then 1 else 0)
      + (if ((s == ("javascript")) || (s == ("email"))) = true then 1 else 0) ≤ 1 := by
  by_cases h1 : s = ("website")
  · simp [h1]
  · by_cases h2 : s = ("local")
    · simp [h2]
    · by_cases h3 : s = ("other")
      · simp [h3]
      · by_cases h4 : s = ("unknown")
        · simp [h4]
        · by_cases h5 : s = ("javascript")
          · simp [h5]
          · by_cases h6 : s = ("email")
            · simp [h6]
            · simp [h1, h2, h3, h4, h5, h6]

/-- The four disjoint type counts never exceed the record count. -/
theorem cnt_partition (bs : List Record) :
    cnt_website bs + cnt_local bs + cnt_other_unknown bs + cnt_js_email bs ≤ bs.length := by
  induction bs with
  | nil => simp [cnt_website, cnt_local, cnt_other_unknown, cnt_js_email]
  | cons b rest ih =>
    have hb := type_partition_le b.bookmark_type
    simp only [cnt_website, cnt_local, cnt_other_unknown, cnt_js_email,
      ← List.countP_eq_length_filter, List.countP_cons, List.length_cons] at *
    omega

/-- Claim C10: the Excel summary sheet counts only website, local and
other-or-unknown records; javascript and email records are counted by no
row, so whenever one is present the three per-type counts sum to strictly
less than the reported total. -/
theorem c10_excel_stats_partition (bookmarks : List Record) :
    excel_stats bookmarks = [(("总书签数"), bookmarks.length),
      (("网页书签"), cnt_website bookmarks),
      (("本地文件"), cnt_local bookmarks),
      (("其他类型"), cnt_other_unknown bookmarks)]
    ∧ cnt_website bookmarks + cnt_local bookmarks + cnt_other_unknown bookmarks
        + cnt_js_email bookmarks ≤ bookmarks.length
    ∧ (0 < cnt_js_email bookmarks →
        cnt_website bookmarks + cnt_local bookmarks + cnt_other_unknown bookmarks
          < bookmarks.length) := by
  have hsum := cnt_partition bookmarks
  exact ⟨rfl, hsum, fun h => by omega⟩

/-- A javascript-scheme record, as the decoder would produce it. -/
def jsRecord : Record :=
  { title := ("js"), url := ("javascript:void(0)"), domain := ("")
    folder := ("书签栏"), add_date := ("未知日期"), last_modified := ("未知日期")
    bookmark_type := ("javascript"), has_icon := false, icon := ("") }

/-- Witness for C10: with one javascript record present, the three summary
counts sum to strictly less than the total. -/
theorem c10_witness :
    cnt_website [jsRecord] + cnt_local [jsRecord] + cnt_other_unknown [jsRecord]
      < ([jsRecord] : List Record).length :=
  (c10_excel_stats_partition [jsRecord]).2.2 (by decide)

